import Mathlib

/-!
Verification of the image-optimization cache of `leptos-image`.

The data model (`CachedImage`, `CachedImageOption`, `Blur`, `Resize`) and the
route handlers (`check_cache_image`, `image_cache_handler_inner`,
`add_file_to_cache`, `add_image_cache`) are embedded from `src/routes.rs` and
`src/image.rs`.  The optimizer module (`CachedImage::get_url_encoded`,
`CachedImage::from_url_encoded`, `ImageOptimizer::create_image`, the file-path
computation and the enum parsing/defaults) is not part of the source tree here;
those pieces are modelled from the specification, as marked on each definition.
-/

namespace LeptosImage

/-- Filter type of a resize request.  Variants from `src/image.rs` (doc comment
on the `filter` prop): Nearest, Triangle, CatmullRom, Gaussian, Lanczos3. -/
inductive FilterType
  | nearest
  | triangle
  | catmullRom
  | gaussian
  | lanczos3
  deriving DecidableEq

/-- Resize mode of a resize request.  Variants from `src/image.rs` (doc comment
on the `resize_type` prop): Fit, Cover, Thumbnail. -/
inductive ResizeType
  | fit
  | cover
  | thumbnail
  deriving DecidableEq

/-- Resize transform parameters, from the construction in `src/image.rs`
(fields `quality`, `filter`, `width`, `height`, `resize_type`).  Machine
integers become `Nat`; validity bounds are tracked separately. -/
structure Resize where
  quality : Nat
  filter : FilterType
  width : Nat
  height : Nat
  resize_type : ResizeType
  deriving DecidableEq

/-- Blur-preview transform parameters, from the construction in
`src/image.rs` (fields `width`, `height`, `svg_width`, `svg_height`,
`sigma`). -/
structure Blur where
  width : Nat
  height : Nat
  svg_width : Nat
  svg_height : Nat
  sigma : Nat
  deriving DecidableEq

/-- The two transform variants, matched in `src/routes.rs`
(`CachedImageOption::Blur(_)` / `CachedImageOption::Resize(_)`). -/
inductive CachedImageOption
  | Resize (r : Resize)
  | Blur (b : Blur)
  deriving DecidableEq

/-- A derivative request: source path plus transform, from the construction in
`src/image.rs` (`CachedImage { src, option }`). -/
structure CachedImage where
  src : String
  option : CachedImageOption
  deriving DecidableEq

/-- True exactly on the blur variant; the discrimination used by
`matches!(image.option, CachedImageOption::Blur(_))` in `src/routes.rs`. -/
def CachedImageOption.isBlur : CachedImageOption → Bool
  | .Blur _ => true
  | .Resize _ => false

/-- Validity of a request: every numeric field fits its machine type
(`u32` for dimensions and sigma, `u8` for quality). -/
def CachedImage.Valid : CachedImage → Prop
  | ⟨_, .Blur b⟩ =>
      b.width < 2 ^ 32 ∧ b.height < 2 ^ 32 ∧ b.svg_width < 2 ^ 32 ∧
        b.svg_height < 2 ^ 32 ∧ b.sigma < 2 ^ 32
  | ⟨_, .Resize r⟩ => r.quality < 2 ^ 8 ∧ r.width < 2 ^ 32 ∧ r.height < 2 ^ 32

/-! ## Key Codec

Modelled from the spec: the codec (`CachedImage::get_url_encoded` /
`CachedImage::from_url_encoded`) lives in the optimizer module, which is not in
the source tree.  The spec requires a deterministic URL-safe token and that
decoding be a left inverse of encoding on valid requests, failing (not
panicking) on malformed input.  We realise it with a tag character, fixed-width
little-endian hex fields, and the source path as the trailing remainder. -/

/-- Hexadecimal digit character for a value below 16. -/
def hexDigitChar : Nat → Char
  | 0 => '0' | 1 => '1' | 2 => '2' | 3 => '3'
  | 4 => '4' | 5 => '5' | 6 => '6' | 7 => '7'
  | 8 => '8' | 9 => '9' | 10 => 'a' | 11 => 'b'
  | 12 => 'c' | 13 => 'd' | 14 => 'e' | _ => 'f'

/-- Value of a lowercase hexadecimal digit character, computed from the code
point; `none` on anything else. -/
def hexDigitVal (c : Char) : Option Nat :=
  if 48 ≤ c.toNat ∧ c.toNat ≤ 57 then some (c.toNat - 48)
  else if 97 ≤ c.toNat ∧ c.toNat ≤ 102 then some (c.toNat - 87)
  else none

/-- Little-endian fixed-width hex rendering of `n` with `w` digits. -/
def hexLE : Nat → Nat → List Char
  | 0, _ => []
  | w + 1, n => hexDigitChar (n % 16) :: hexLE w (n / 16)

/-- Parse `w` little-endian hex digits off the front of the list, returning the
value and the remainder. -/
def parseHexLE : Nat → List Char → Option (Nat × List Char)
  | 0, l => some (0, l)
  | _ + 1, [] => none
  | w + 1, c :: l =>
    match hexDigitVal c with
    | none => none
    | some d =>
      match parseHexLE w l with
      | none => none
      | some (m, rest) => some (d + 16 * m, rest)

theorem hexDigitVal_hexDigitChar : ∀ d < 16, hexDigitVal (hexDigitChar d) = some d := by
  decide

theorem parseHexLE_hexLE (w : Nat) :
    ∀ n rest, n < 16 ^ w → parseHexLE w (hexLE w n ++ rest) = some (n, rest) := by
  induction w with
  | zero =>
    intro n rest hn
    interval_cases n
    rfl
  | succ w ih =>
    intro n rest hn
    have hmod : n % 16 < 16 := Nat.mod_lt _ (by norm_num)
    have hdiv : n / 16 < 16 ^ w := by
      rw [Nat.div_lt_iff_lt_mul (by norm_num)]
      calc n < 16 ^ (w + 1) := hn
        _ = 16 ^ w * 16 := by ring
    simp only [hexLE, List.cons_append, parseHexLE, List.append_eq,
      hexDigitVal_hexDigitChar (n % 16) hmod, ih (n / 16) rest hdiv]
    rw [Nat.mod_add_div]

/-- Single-character tag for a filter variant. -/
def FilterType.toChar : FilterType → Char
  | .nearest => 'n'
  | .triangle => 't'
  | .catmullRom => 'c'
  | .gaussian => 'g'
  | .lanczos3 => 'l'

/-- Inverse of `FilterType.toChar`, `none` on anything else. -/
def filterOfChar : Char → Option FilterType
  | 'n' => some .nearest
  | 't' => some .triangle
  | 'c' => some .catmullRom
  | 'g' => some .gaussian
  | 'l' => some .lanczos3
  | _ => none

theorem filterOfChar_toChar (f : FilterType) : filterOfChar f.toChar = some f := by
  cases f <;> rfl

/-- Single-character tag for a resize-mode variant. -/
def ResizeType.toChar : ResizeType → Char
  | .fit => 'f'
  | .cover => 'c'
  | .thumbnail => 't'

/-- Inverse of `ResizeType.toChar`, `none` on anything else. -/
def resizeOfChar : Char → Option ResizeType
  | 'f' => some .fit
  | 'c' => some .cover
  | 't' => some .thumbnail
  | _ => none

theorem resizeOfChar_toChar (m : ResizeType) : resizeOfChar m.toChar = some m := by
  cases m <;> rfl

/-- Token body of a request, as a character list: a variant tag, the numeric
fields in fixed-width little-endian hex, the enum tags, and the source path as
the remainder. -/
def encodeList : CachedImage → List Char
  | ⟨src, .Blur b⟩ =>
      'b' :: (hexLE 8 b.width ++ hexLE 8 b.height ++ hexLE 8 b.svg_width ++
        hexLE 8 b.svg_height ++ hexLE 8 b.sigma ++ src.data)
  | ⟨src, .Resize r⟩ =>
      'r' :: (hexLE 2 r.quality ++ r.filter.toChar :: (hexLE 8 r.width ++
        hexLE 8 r.height ++ r.resize_type.toChar :: src.data))

/-- Decoder for the body of a blur token (after the `b` tag). -/
def decodeBlur (l : List Char) : Option CachedImage :=
  match parseHexLE 8 l with
  | none => none
  | some (w, r1) =>
    match parseHexLE 8 r1 with
    | none => none
    | some (h, r2) =>
      match parseHexLE 8 r2 with
      | none => none
      | some (sw, r3) =>
        match parseHexLE 8 r3 with
        | none => none
        | some (sh, r4) =>
          match parseHexLE 8 r4 with
          | none => none
          | some (sg, r5) =>
            some ⟨String.mk r5, .Blur ⟨w, h, sw, sh, sg⟩⟩

/-- Decoder for the body of a resize token (after the `r` tag). -/
def decodeResize (l : List Char) : Option CachedImage :=
  match parseHexLE 2 l with
  | none => none
  | some (q, r1) =>
    match r1 with
    | [] => none
    | fc :: r2 =>
      match filterOfChar fc with
      | none => none
      | some f =>
        match parseHexLE 8 r2 with
        | none => none
        | some (w, r3) =>
          match parseHexLE 8 r3 with
          | none => none
          | some (h, r4) =>
            match r4 with
            | [] => none
            | mc :: r5 =>
              match resizeOfChar mc with
              | none => none
              | some m =>
                some ⟨String.mk r5, .Resize ⟨q, f, w, h, m⟩⟩

/-- Token decoder on character lists: dispatch on the variant tag, fail on
anything malformed. -/
def decodeList (l : List Char) : Option CachedImage :=
  match l with
  | [] => none
  | c :: rest =>
    if c = 'b' then decodeBlur rest
    else if c = 'r' then decodeResize rest
    else none

/-- Modelled from the spec: `CachedImage::get_url_encoded`, the Key Codec
encoder (spec section 4.1); the optimizer module is absent from the source
tree.  Deterministically renders a request as a URL-safe token. -/
def CachedImage.get_url_encoded (img : CachedImage) : String :=
  String.mk (encodeList img)

/-- Modelled from the spec: `CachedImage::from_url_encoded`, the Key Codec
decoder (spec section 4.1); the optimizer module is absent from the source
tree.  Total over arbitrary strings, returning `none` on malformed input. -/
def CachedImage.from_url_encoded (s : String) : Option CachedImage :=
  decodeList s.data

/-- C1: for every valid `DerivativeRequest` `r`, decoding the token produced
by encoding `r` yields `r` again: `from_url_encoded (get_url_encoded r) = r`. -/
theorem C1_round_trip (img : CachedImage) (h : img.Valid) :
    CachedImage.from_url_encoded img.get_url_encoded = some img := by
  obtain ⟨src, opt⟩ := img
  cases opt with
  | Blur b =>
    obtain ⟨h1, h2, h3, h4, h5⟩ := h
    have hb : ∀ n : Nat, n < 2 ^ 32 → n < 16 ^ 8 := by
      intro n hn
      calc n < 2 ^ 32 := hn
        _ ≤ 16 ^ 8 := by norm_num
    have e1 := parseHexLE_hexLE 8 b.width (hexLE 8 b.height ++ (hexLE 8 b.svg_width ++
      (hexLE 8 b.svg_height ++ (hexLE 8 b.sigma ++ src.data)))) (hb _ h1)
    have e2 := parseHexLE_hexLE 8 b.height (hexLE 8 b.svg_width ++
      (hexLE 8 b.svg_height ++ (hexLE 8 b.sigma ++ src.data))) (hb _ h2)
    have e3 := parseHexLE_hexLE 8 b.svg_width
      (hexLE 8 b.svg_height ++ (hexLE 8 b.sigma ++ src.data)) (hb _ h3)
    have e4 := parseHexLE_hexLE 8 b.svg_height (hexLE 8 b.sigma ++ src.data) (hb _ h4)
    have e5 := parseHexLE_hexLE 8 b.sigma src.data (hb _ h5)
    show decodeList (encodeList ⟨src, .Blur b⟩) = some ⟨src, .Blur b⟩
    simp only [encodeList]
    rw [show ∀ R, decodeList ('b' :: R) = decodeBlur R from fun _ => rfl]
    simp only [decodeBlur, List.append_assoc, e1, e2, e3, e4, e5]
  | Resize r =>
    obtain ⟨h1, h2, h3⟩ := h
    have hq : r.quality < 16 ^ 2 := by
      calc r.quality < 2 ^ 8 := h1
        _ ≤ 16 ^ 2 := by norm_num
    have hb : ∀ n : Nat, n < 2 ^ 32 → n < 16 ^ 8 := by
      intro n hn
      calc n < 2 ^ 32 := hn
        _ ≤ 16 ^ 8 := by norm_num
    have e1 := parseHexLE_hexLE 2 r.quality (r.filter.toChar ::
      (hexLE 8 r.width ++ (hexLE 8 r.height ++ r.resize_type.toChar :: src.data))) hq
    have e2 := parseHexLE_hexLE 8 r.width
      (hexLE 8 r.height ++ r.resize_type.toChar :: src.data) (hb _ h2)
    have e3 := parseHexLE_hexLE 8 r.height (r.resize_type.toChar :: src.data) (hb _ h3)
    show decodeList (encodeList ⟨src, .Resize r⟩) = some ⟨src, .Resize r⟩
    simp only [encodeList]
    rw [show ∀ R, decodeList ('r' :: R) = decodeResize R from fun _ => rfl]
    simp only [decodeResize, List.append_assoc, List.cons_append, e1, e2, e3,
      filterOfChar_toChar, resizeOfChar_toChar]

/-- Witness for C1 at the example request given in the spec. -/
theorem C1_round_trip_witness :
    CachedImage.Valid ⟨"cat.png", .Resize ⟨75, .catmullRom, 300, 200, .fit⟩⟩ ∧
      CachedImage.from_url_encoded
          (CachedImage.get_url_encoded ⟨"cat.png", .Resize ⟨75, .catmullRom, 300, 200, .fit⟩⟩) =
        some ⟨"cat.png", .Resize ⟨75, .catmullRom, 300, 200, .fit⟩⟩ := by
  refine ⟨show 75 < 2 ^ 8 ∧ 300 < 2 ^ 32 ∧ 200 < 2 ^ 32 by norm_num, ?_⟩
  exact C1_round_trip _ (show 75 < 2 ^ 8 ∧ 300 < 2 ^ 32 ∧ 200 < 2 ^ 32 by norm_num)

/-! ## Optimizer surface and route handlers

The handlers below are embedded from `src/routes.rs`.  The optimizer state is
modelled: its placeholder cache becomes an association list, and the outcome of
`ImageOptimizer::create_image` (async, filesystem-dependent, defined in the
absent optimizer module) becomes an oracle field.  The filesystem
(`tokio::fs::read_to_string`) and URI parsing (`str::parse::<Uri>()`, an
external crate) are likewise explicit oracles. -/

/-- Modelled from the spec: the typed failure taxonomy of derivative creation
(`CreateImageError`, spec section 7); the optimizer module is absent from the
source tree. -/
inductive CreateImageError
  | sourceNotFound
  | decodeImageError
  | transformError
  | ioError
  deriving DecidableEq

/-- Modelled from the spec: `CachedImage::get_file_path` (spec section 4.2
step 1) — the deterministic on-disk relative path of the derivative, a pure
function of the request; here derived from the token. -/
def CachedImage.get_file_path (img : CachedImage) : String :=
  "cache/image/" ++ img.get_url_encoded

/-- Modelled from the spec: `ImageOptimizer::get_file_path_from_root` — the
derivative path resolved against the configured cache root. -/
def get_file_path_from_root (root : String) (img : CachedImage) : String :=
  root ++ "/" ++ img.get_file_path

/-- Model of the `ImageOptimizer` state visible to `src/routes.rs`: the
placeholder cache (`optimizer.cache`, a concurrent map modelled as an
association list), the cache root, and the outcome oracle for
`ImageOptimizer::create_image` (resolution itself lives in the absent
optimizer module). -/
structure ImageOptimizer where
  cache : List (CachedImage × String)
  root : String
  create_image : CachedImage → Except CreateImageError Bool

/-- Filesystem oracle: outcome of `tokio::fs::read_to_string` per path. -/
structure Fs where
  read_to_string : String → Option String

/-- Lookup in the placeholder cache (`optimizer.cache.get(&image)`). -/
def cacheLookup (cache : List (CachedImage × String)) (img : CachedImage) : Option String :=
  (cache.find? (fun e => e.1 == img)).map (fun e => e.2)

/-- Outcome of a warm pass over the placeholder cache: the resulting cache,
the disk reads attempted, and the failed reads that were logged. -/
structure WarmResult where
  cache : List (CachedImage × String)
  reads : List CachedImage
  failures : List CachedImage
  deriving DecidableEq

/-- Embedding of the loop body of `add_image_cache` in `src/routes.rs`: the
lazy iterator filters each image for the blur variant and absence from the
cache at the moment it is reached, then reads its derivative file; a
successful read inserts, a failed read is logged and skipped. -/
def add_image_cache_go (fs : Fs) (root : String) :
    List (CachedImage × String) → List CachedImage → WarmResult
  | cache, [] => ⟨cache, [], []⟩
  | cache, img :: rest =>
    if img.option.isBlur && (cacheLookup cache img).isNone then
      match fs.read_to_string (get_file_path_from_root root img) with
      | some data =>
        let r := add_image_cache_go fs root (cache ++ [(img, data)]) rest
        ⟨r.cache, img :: r.reads, r.failures⟩
      | none =>
        let r := add_image_cache_go fs root cache rest
        ⟨r.cache, img :: r.reads, img :: r.failures⟩
    else
      add_image_cache_go fs root cache rest

/-- Embedding of `add_image_cache` from `src/routes.rs` (bulk warm path of the
placeholder cache). -/
def add_image_cache (fs : Fs) (opt : ImageOptimizer) (images : List CachedImage) : WarmResult :=
  add_image_cache_go fs opt.root opt.cache images

/-- Result of the per-request warm offer: the warm outcome, and the batch that
was offered to `add_image_cache` (empty when the variant is not blur). -/
structure OfferResult where
  warm : WarmResult
  offered : List CachedImage
  deriving DecidableEq

/-- Embedding of `add_file_to_cache` from `src/routes.rs`: only a blur-variant
image is offered to `add_image_cache`. -/
def add_file_to_cache (fs : Fs) (opt : ImageOptimizer) (image : CachedImage) : OfferResult :=
  match image.option with
  | .Blur _ => ⟨add_image_cache fs opt [image], [image]⟩
  | .Resize _ => ⟨⟨opt.cache, [], []⟩, []⟩

/-- Observable outcome of `check_cache_image` from `src/routes.rs`: the
returned value, the placeholder cache afterwards, whether `create_image` was
invoked, the batch offered to the warm path, and the disk reads and logged
failures of the warm path. -/
structure CheckResult where
  result : Except CreateImageError (Option String)
  cache : List (CachedImage × String)
  createAttempted : Bool
  offered : List CachedImage
  reads : List CachedImage
  failures : List CachedImage

/-- Embedding of `check_cache_image` from `src/routes.rs`: decode the token
(`Ok(None)` on failure, without touching `create_image`), create the
derivative (propagating its error), offer the blur variant to the warm path,
then parse the file path (prefixed with a slash) as a URI, degrading a parse
failure to `Ok(None)`. -/
def check_cache_image (fs : Fs) (parseUri : String → Option String)
    (opt : ImageOptimizer) (url : String) : CheckResult :=
  match CachedImage.from_url_encoded url with
  | none => ⟨.ok none, opt.cache, false, [], [], []⟩
  | some img =>
    match opt.create_image img with
    | .error e => ⟨.error e, opt.cache, true, [], [], []⟩
    | .ok _ =>
      let file_path := img.get_file_path
      let o := add_file_to_cache fs opt img
      match parseUri ("/" ++ file_path) with
      | some uri => ⟨.ok (some uri), o.warm.cache, true, o.offered, o.warm.reads, o.warm.failures⟩
      | none => ⟨.ok none, o.warm.cache, true, o.offered, o.warm.reads, o.warm.failures⟩

/-- HTTP response produced by the handler: either the static-file service
response for a URI, or a plain status/body response. -/
inductive HandlerResponse
  | fileResponse (uri : String)
  | plain (status : Nat) (body : String)
  deriving DecidableEq

/-- Observable outcome of `image_cache_handler_inner` from `src/routes.rs`. -/
structure HandlerResult where
  response : HandlerResponse
  cache : List (CachedImage × String)
  createAttempted : Bool
  offered : List CachedImage
  loggedError : Option CreateImageError

/-- Embedding of `image_cache_handler_inner` from `src/routes.rs`:
`Ok(Some(uri))` streams the file, `Ok(None)` responds 404 "Invalid Image.",
`Err(e)` logs the typed cause and responds 500 "Error creating image". -/
def image_cache_handler_inner (fs : Fs) (parseUri : String → Option String)
    (opt : ImageOptimizer) (url : String) : HandlerResult :=
  let c := check_cache_image fs parseUri opt url
  match c.result with
  | .ok (some uri) => ⟨.fileResponse uri, c.cache, c.createAttempted, c.offered, none⟩
  | .ok none => ⟨.plain 404 "Invalid Image.", c.cache, c.createAttempted, c.offered, none⟩
  | .error e => ⟨.plain 500 "Error creating image", c.cache, c.createAttempted, c.offered, some e⟩

/-! ## The `Image` component (`src/image.rs`)

Embedded is the request-construction logic: the early-return branch for
sources starting with "http" (which renders a plain `<img>` with the original
`src` and constructs no `CachedImage`), and the blur/resize `CachedImage`
values constructed otherwise.  Rendering details beyond that are out of
scope. -/

/-- Embedding of `str::starts_with` on strings. -/
def starts_with (s p : String) : Bool :=
  List.isPrefixOf p.data s.data

/-- Modelled from the spec: `FromStr` for the filter enum (the optimizer
module carrying it is absent); accepts the lowercase variant names, as used by
the prop defaults of the component in `src/image.rs`. -/
def FilterType.parse (s : String) : Option FilterType :=
  if s = "nearest" then some .nearest
  else if s = "triangle" then some .triangle
  else if s = "catmullrom" then some .catmullRom
  else if s = "gaussian" then some .gaussian
  else if s = "lanczos3" then some .lanczos3
  else none

/-- Modelled from the spec: the `Default` variant of the filter enum is not
fixed by the spec; the first listed variant is chosen. -/
def FilterType.default : FilterType := .nearest

/-- Modelled from the spec: `FromStr` for the resize-mode enum (the optimizer
module carrying it is absent); accepts the lowercase variant names. -/
def ResizeType.parse (s : String) : Option ResizeType :=
  if s = "fit" then some .fit
  else if s = "cover" then some .cover
  else if s = "thumbnail" then some .thumbnail
  else none

/-- Modelled from the spec: the `Default` variant of the resize-mode enum is
not fixed by the spec; the first listed variant is chosen. -/
def ResizeType.default : ResizeType := .fit

/-- What the `Image` component builds: either a plain `<img>` carrying the
original source (the early return), or the pair of constructed
`CachedImage` requests (blur preview and resize). -/
inductive ImageView
  | plainImg (src : String) (loading : String)
  | cachedImg (blur_image : CachedImage) (opt_image : CachedImage)
  deriving DecidableEq

/-- Embedding of the request-construction logic of the `Image` component from
`src/image.rs`: sources starting with "http" take the early return; all other
sources get the fixed blur request and a resize request whose filter and
resize type fall back to the default variant when parsing fails
(`parse().unwrap_or_default()`). -/
def Image (src : String) (height width : Nat) (quality : Nat)
    (filter resize_type : String) (lazy : Bool) : ImageView :=
  if starts_with src "http" then
    .plainImg src (if lazy then "lazy" else "eager")
  else
    .cachedImg
      ⟨src, .Blur ⟨20, 20, 100, 100, 15⟩⟩
      ⟨src, .Resize ⟨quality, (FilterType.parse filter).getD FilterType.default,
        width, height, (ResizeType.parse resize_type).getD ResizeType.default⟩⟩

/-! ## Claims about the route handlers -/

/-- C2: when the token of an inbound request fails to decode, the handler
responds 404 "Invalid Image." (never a server error) and `create_image` is
not attempted. -/
theorem C2_undecodable_token_404 (fs : Fs) (parseUri : String → Option String)
    (opt : ImageOptimizer) (url : String)
    (h : CachedImage.from_url_encoded url = none) :
    (image_cache_handler_inner fs parseUri opt url).response =
        HandlerResponse.plain 404 "Invalid Image." ∧
      (image_cache_handler_inner fs parseUri opt url).createAttempted = false := by
  simp [image_cache_handler_inner, check_cache_image, h]

/-- Witness for C2: the empty string is not a decodable token, and the handler
responds 404 without attempting creation. -/
theorem C2_undecodable_token_404_witness :
    CachedImage.from_url_encoded "" = none ∧
      ((image_cache_handler_inner ⟨fun _ => none⟩ (fun _ => none)
            ⟨[], "site", fun _ => .ok false⟩ "").response =
          HandlerResponse.plain 404 "Invalid Image." ∧
        (image_cache_handler_inner ⟨fun _ => none⟩ (fun _ => none)
            ⟨[], "site", fun _ => .ok false⟩ "").createAttempted = false) :=
  ⟨rfl, C2_undecodable_token_404 _ _ _ _ rfl⟩

/-- C3: when the token decodes but creation fails with a typed error, the
handler responds 500 "Error creating image" and logs that typed cause. -/
theorem C3_create_failure_500 (fs : Fs) (parseUri : String → Option String)
    (opt : ImageOptimizer) (url : String) (img : CachedImage) (e : CreateImageError)
    (h1 : CachedImage.from_url_encoded url = some img)
    (h2 : opt.create_image img = .error e) :
    (image_cache_handler_inner fs parseUri opt url).response =
        HandlerResponse.plain 500 "Error creating image" ∧
      (image_cache_handler_inner fs parseUri opt url).loggedError = some e := by
  simp [image_cache_handler_inner, check_cache_image, h1, h2]

/-- Witness for C3 with a concrete request whose creation fails with an I/O
error. -/
theorem C3_create_failure_500_witness :
    CachedImage.from_url_encoded
        (CachedImage.get_url_encoded ⟨"a.png", .Blur ⟨1, 2, 3, 4, 5⟩⟩) =
        some ⟨"a.png", .Blur ⟨1, 2, 3, 4, 5⟩⟩ ∧
      (⟨[], "site", fun _ => .error .ioError⟩ : ImageOptimizer).create_image
          ⟨"a.png", .Blur ⟨1, 2, 3, 4, 5⟩⟩ = .error .ioError ∧
      ((image_cache_handler_inner ⟨fun _ => none⟩ (fun _ => none)
            ⟨[], "site", fun _ => .error .ioError⟩
            (CachedImage.get_url_encoded ⟨"a.png", .Blur ⟨1, 2, 3, 4, 5⟩⟩)).response =
          HandlerResponse.plain 500 "Error creating image" ∧
        (image_cache_handler_inner ⟨fun _ => none⟩ (fun _ => none)
            ⟨[], "site", fun _ => .error .ioError⟩
            (CachedImage.get_url_encoded ⟨"a.png", .Blur ⟨1, 2, 3, 4, 5⟩⟩)).loggedError =
          some .ioError) :=
  ⟨by decide, rfl,
    C3_create_failure_500 ⟨fun _ => none⟩ (fun _ => none)
      ⟨[], "site", fun _ => .error .ioError⟩
      (CachedImage.get_url_encoded ⟨"a.png", .Blur ⟨1, 2, 3, 4, 5⟩⟩)
      ⟨"a.png", .Blur ⟨1, 2, 3, 4, 5⟩⟩ .ioError (by decide) rfl⟩

/-- C4: after a successful resolution, the request is offered to the
placeholder warm path exactly when its option is the blur variant; resize
variants are never offered. -/
theorem C4_blur_offered (fs : Fs) (parseUri : String → Option String)
    (opt : ImageOptimizer) (url : String) (img : CachedImage) (b : Bool)
    (h1 : CachedImage.from_url_encoded url = some img)
    (h2 : opt.create_image img = .ok b) :
    (image_cache_handler_inner fs parseUri opt url).offered =
      if img.option.isBlur then [img] else [] := by
  cases himg : img.option with
  | Blur bb =>
    cases hp : parseUri ("/" ++ img.get_file_path) <;>
      simp [image_cache_handler_inner, check_cache_image, h1, h2, hp,
        add_file_to_cache, himg, CachedImageOption.isBlur]
  | Resize rr =>
    cases hp : parseUri ("/" ++ img.get_file_path) <;>
      simp [image_cache_handler_inner, check_cache_image, h1, h2, hp,
        add_file_to_cache, himg, CachedImageOption.isBlur]

/-- Witness for C4 with a concrete blur request that resolves successfully. -/
theorem C4_blur_offered_witness :
    CachedImage.from_url_encoded
        (CachedImage.get_url_encoded ⟨"a.png", .Blur ⟨1, 2, 3, 4, 5⟩⟩) =
        some ⟨"a.png", .Blur ⟨1, 2, 3, 4, 5⟩⟩ ∧
      (⟨[], "site", fun _ => .ok true⟩ : ImageOptimizer).create_image
          ⟨"a.png", .Blur ⟨1, 2, 3, 4, 5⟩⟩ = .ok true ∧
      (image_cache_handler_inner ⟨fun _ => none⟩ (fun _ => none)
          ⟨[], "site", fun _ => .ok true⟩
          (CachedImage.get_url_encoded ⟨"a.png", .Blur ⟨1, 2, 3, 4, 5⟩⟩)).offered =
        if (CachedImageOption.Blur ⟨1, 2, 3, 4, 5⟩).isBlur
          then [⟨"a.png", .Blur ⟨1, 2, 3, 4, 5⟩⟩] else [] :=
  ⟨by decide, rfl,
    C4_blur_offered ⟨fun _ => none⟩ (fun _ => none) ⟨[], "site", fun _ => .ok true⟩
      (CachedImage.get_url_encoded ⟨"a.png", .Blur ⟨1, 2, 3, 4, 5⟩⟩)
      ⟨"a.png", .Blur ⟨1, 2, 3, 4, 5⟩⟩ true (by decide) rfl⟩

/-- C9: when a request decodes and creation succeeds but the slash-prefixed
file path does not parse as a URI, `check_cache_image` returns `Ok(None)` and
the handler responds 404 "Invalid Image.". -/
theorem C9_unparsable_path_404 (fs : Fs) (parseUri : String → Option String)
    (opt : ImageOptimizer) (url : String) (img : CachedImage) (b : Bool)
    (h1 : CachedImage.from_url_encoded url = some img)
    (h2 : opt.create_image img = .ok b)
    (h3 : parseUri ("/" ++ img.get_file_path) = none) :
    (check_cache_image fs parseUri opt url).result = .ok none ∧
      (image_cache_handler_inner fs parseUri opt url).response =
        HandlerResponse.plain 404 "Invalid Image." := by
  simp [image_cache_handler_inner, check_cache_image, h1, h2, h3]

/-- Witness for C9 with a URI parser that rejects every path. -/
theorem C9_unparsable_path_404_witness :
    CachedImage.from_url_encoded
        (CachedImage.get_url_encoded ⟨"a.png", .Blur ⟨1, 2, 3, 4, 5⟩⟩) =
        some ⟨"a.png", .Blur ⟨1, 2, 3, 4, 5⟩⟩ ∧
      (⟨[], "site", fun _ => .ok true⟩ : ImageOptimizer).create_image
          ⟨"a.png", .Blur ⟨1, 2, 3, 4, 5⟩⟩ = .ok true ∧
      ((check_cache_image ⟨fun _ => none⟩ (fun _ => none)
            ⟨[], "site", fun _ => .ok true⟩
            (CachedImage.get_url_encoded ⟨"a.png", .Blur ⟨1, 2, 3, 4, 5⟩⟩)).result =
          .ok none ∧
        (image_cache_handler_inner ⟨fun _ => none⟩ (fun _ => none)
            ⟨[], "site", fun _ => .ok true⟩
            (CachedImage.get_url_encoded ⟨"a.png", .Blur ⟨1, 2, 3, 4, 5⟩⟩)).response =
          HandlerResponse.plain 404 "Invalid Image.") :=
  ⟨by decide, rfl,
    C9_unparsable_path_404 ⟨fun _ => none⟩ (fun _ => none) ⟨[], "site", fun _ => .ok true⟩
      (CachedImage.get_url_encoded ⟨"a.png", .Blur ⟨1, 2, 3, 4, 5⟩⟩)
      ⟨"a.png", .Blur ⟨1, 2, 3, 4, 5⟩⟩ true (by decide) rfl rfl⟩

/-! ## Claims about the placeholder cache warm paths -/

/-- Every entry present after a warm pass was either already present or has a
blur-variant key (the loop inserts only images that pass the blur filter). -/
theorem add_image_cache_go_mem (fs : Fs) (root : String) (images : List CachedImage) :
    ∀ cache e, e ∈ (add_image_cache_go fs root cache images).cache →
      e ∈ cache ∨ e.1.option.isBlur = true := by
  induction images with
  | nil =>
    intro cache e he
    exact Or.inl he
  | cons img rest ih =>
    intro cache e he
    by_cases hc : (img.option.isBlur && (cacheLookup cache img).isNone) = true
    · simp only [add_image_cache_go] at he
      rw [if_pos hc] at he
      cases hr : fs.read_to_string (get_file_path_from_root root img) with
      | some data =>
        rw [hr] at he
        rcases ih (cache ++ [(img, data)]) e he with hmem | hblur
        · rcases List.mem_append.mp hmem with h0 | h1
          · exact Or.inl h0
          · right
            rcases List.mem_singleton.mp h1 with rfl
            exact (Bool.and_eq_true _ _ |>.mp hc).1
        · exact Or.inr hblur
      | none =>
        rw [hr] at he
        exact ih cache e he
    · simp only [add_image_cache_go] at he
      rw [if_neg hc] at he
      exact ih cache e he

/-- C5: entries inserted by the warm path all have blur-variant keys — any
entry of the cache after `add_image_cache` was either already present or is a
blur placeholder. -/
theorem C5_cache_blur_only (fs : Fs) (opt : ImageOptimizer) (images : List CachedImage)
    (e : CachedImage × String)
    (he : e ∈ (add_image_cache fs opt images).cache) :
    e ∈ opt.cache ∨ e.1.option.isBlur = true :=
  add_image_cache_go_mem fs opt.root images opt.cache e he

/-- Witness for C5: warming a batch holding a blur and a resize image inserts
the blur entry, which satisfies the disjunction. -/
theorem C5_cache_blur_only_witness :
    (⟨"a.png", .Blur ⟨1, 2, 3, 4, 5⟩⟩, "data") ∈
        (add_image_cache ⟨fun _ => some "data"⟩ ⟨[], "site", fun _ => .ok true⟩
          [⟨"a.png", .Blur ⟨1, 2, 3, 4, 5⟩⟩,
            ⟨"a.png", .Resize ⟨75, .nearest, 1, 2, .fit⟩⟩]).cache ∧
      ((⟨"a.png", .Blur ⟨1, 2, 3, 4, 5⟩⟩, "data") ∈
          (⟨[], "site", fun _ => .ok true⟩ : ImageOptimizer).cache ∨
        ((⟨"a.png", .Blur ⟨1, 2, 3, 4, 5⟩⟩ : CachedImage), "data").1.option.isBlur = true) :=
  ⟨by decide,
    C5_cache_blur_only ⟨fun _ => some "data"⟩ ⟨[], "site", fun _ => .ok true⟩
      [⟨"a.png", .Blur ⟨1, 2, 3, 4, 5⟩⟩, ⟨"a.png", .Resize ⟨75, .nearest, 1, 2, .fit⟩⟩]
      (⟨"a.png", .Blur ⟨1, 2, 3, 4, 5⟩⟩, "data") (by decide)⟩

/-- C6: warming a key already present in the placeholder cache is a no-op —
the cache is unchanged (so the existing payload is kept) and no disk read and
no logged failure occurs. -/
theorem C6_warm_idempotent (fs : Fs) (opt : ImageOptimizer) (img : CachedImage) (v : String)
    (h : cacheLookup opt.cache img = some v) :
    add_image_cache fs opt [img] = ⟨opt.cache, [], []⟩ ∧
      cacheLookup (add_image_cache fs opt [img]).cache img = some v := by
  have h0 : add_image_cache fs opt [img] = ⟨opt.cache, [], []⟩ := by
    simp [add_image_cache, add_image_cache_go, h]
  exact ⟨h0, by rw [h0]; exact h⟩

/-- Witness for C6 with a concrete key already in the cache. -/
theorem C6_warm_idempotent_witness :
    cacheLookup [(⟨"a.png", .Blur ⟨1, 2, 3, 4, 5⟩⟩, "payload")]
        ⟨"a.png", .Blur ⟨1, 2, 3, 4, 5⟩⟩ = some "payload" ∧
      (add_image_cache ⟨fun _ => some "other"⟩
            ⟨[(⟨"a.png", .Blur ⟨1, 2, 3, 4, 5⟩⟩, "payload")], "site", fun _ => .ok true⟩
            [⟨"a.png", .Blur ⟨1, 2, 3, 4, 5⟩⟩] =
          ⟨[(⟨"a.png", .Blur ⟨1, 2, 3, 4, 5⟩⟩, "payload")], [], []⟩ ∧
        cacheLookup
            (add_image_cache ⟨fun _ => some "other"⟩
              ⟨[(⟨"a.png", .Blur ⟨1, 2, 3, 4, 5⟩⟩, "payload")], "site", fun _ => .ok true⟩
              [⟨"a.png", .Blur ⟨1, 2, 3, 4, 5⟩⟩]).cache
            ⟨"a.png", .Blur ⟨1, 2, 3, 4, 5⟩⟩ = some "payload") :=
  ⟨by decide,
    C6_warm_idempotent ⟨fun _ => some "other"⟩
      ⟨[(⟨"a.png", .Blur ⟨1, 2, 3, 4, 5⟩⟩, "payload")], "site", fun _ => .ok true⟩
      ⟨"a.png", .Blur ⟨1, 2, 3, 4, 5⟩⟩ "payload" (by decide)⟩

/-- Warm passes compose: processing `xs ++ ys` processes `xs` first and then
`ys` from the resulting cache, concatenating the read and failure logs. -/
theorem add_image_cache_go_append (fs : Fs) (root : String) (xs ys : List CachedImage) :
    ∀ cache,
      add_image_cache_go fs root cache (xs ++ ys) =
        ⟨(add_image_cache_go fs root (add_image_cache_go fs root cache xs).cache ys).cache,
          (add_image_cache_go fs root cache xs).reads ++
            (add_image_cache_go fs root (add_image_cache_go fs root cache xs).cache ys).reads,
          (add_image_cache_go fs root cache xs).failures ++
            (add_image_cache_go fs root (add_image_cache_go fs root cache xs).cache ys).failures⟩ := by
  induction xs with
  | nil =>
    intro cache
    simp [add_image_cache_go]
  | cons x xs ih =>
    intro cache
    by_cases hc : (x.option.isBlur && (cacheLookup cache x).isNone) = true
    · cases hr : fs.read_to_string (get_file_path_from_root root x) with
      | some data =>
        simp only [List.cons_append, add_image_cache_go]
        rw [if_pos hc, if_pos hc, hr]
        simp [ih (cache ++ [(x, data)])]
      | none =>
        simp only [List.cons_append, add_image_cache_go]
        rw [if_pos hc, if_pos hc, hr]
        simp [ih cache]
    · simp only [List.cons_append, add_image_cache_go]
      rw [if_neg hc, if_neg hc]
      exact ih cache

/-- C7: a failed disk read in the bulk warm path is non-fatal.  With a batch
`pre ++ bad :: post` whose image `bad` fails to read, the final cache is the
one obtained as if `bad` were absent from the batch (it is skipped, the rest
is still processed), and `bad` is logged as a failed read exactly when it
reached the disk read (blur variant, not yet cached); the pass itself always
returns (it produces a `WarmResult`, never an error). -/
theorem C7_failed_read_nonfatal (fs : Fs) (opt : ImageOptimizer)
    (pre post : List CachedImage) (bad : CachedImage)
    (hread : fs.read_to_string (get_file_path_from_root opt.root bad) = none) :
    (add_image_cache fs opt (pre ++ bad :: post)).cache =
        (add_image_cache fs opt (pre ++ post)).cache ∧
      (add_image_cache fs opt (pre ++ bad :: post)).failures =
        (add_image_cache fs opt pre).failures ++
          (if bad.option.isBlur &&
              (cacheLookup (add_image_cache fs opt pre).cache bad).isNone
            then [bad] else []) ++
          (add_image_cache_go fs opt.root (add_image_cache fs opt pre).cache post).failures ∧
      (add_image_cache fs opt (pre ++ post)).failures =
        (add_image_cache fs opt pre).failures ++
          (add_image_cache_go fs opt.root (add_image_cache fs opt pre).cache post).failures := by
  unfold add_image_cache
  rw [add_image_cache_go_append fs opt.root pre (bad :: post) opt.cache,
    add_image_cache_go_append fs opt.root pre post opt.cache]
  by_cases hc : (bad.option.isBlur &&
      (cacheLookup (add_image_cache_go fs opt.root opt.cache pre).cache bad).isNone) = true
  · constructor
    · show (add_image_cache_go fs opt.root _ (bad :: post)).cache = _
      simp only [add_image_cache_go]
      rw [if_pos hc, hread]
    · constructor
      · show _ ++ (add_image_cache_go fs opt.root _ (bad :: post)).failures = _
        simp only [add_image_cache_go]
        rw [if_pos hc, hread, if_pos hc]
        simp
      · rfl
  · constructor
    · show (add_image_cache_go fs opt.root _ (bad :: post)).cache = _
      simp only [add_image_cache_go]
      rw [if_neg hc]
    · constructor
      · show _ ++ (add_image_cache_go fs opt.root _ (bad :: post)).failures = _
        simp only [add_image_cache_go]
        rw [if_neg hc, if_neg hc]
        simp
      · rfl

/-- Witness for C7: every read fails; the failing blur image is logged and
skipped while the rest of the batch is still processed. -/
theorem C7_failed_read_nonfatal_witness :
    (⟨fun _ => none⟩ : Fs).read_to_string
        (get_file_path_from_root "site" ⟨"b.png", .Blur ⟨2, 2, 2, 2, 2⟩⟩) = none ∧
      ((add_image_cache ⟨fun _ => none⟩ ⟨[], "site", fun _ => .ok true⟩
            ([⟨"a.png", .Blur ⟨1, 1, 1, 1, 1⟩⟩] ++
              ⟨"b.png", .Blur ⟨2, 2, 2, 2, 2⟩⟩ :: [⟨"c.png", .Blur ⟨3, 3, 3, 3, 3⟩⟩])).cache =
          (add_image_cache ⟨fun _ => none⟩ ⟨[], "site", fun _ => .ok true⟩
            ([⟨"a.png", .Blur ⟨1, 1, 1, 1, 1⟩⟩] ++ [⟨"c.png", .Blur ⟨3, 3, 3, 3, 3⟩⟩])).cache ∧
        (add_image_cache ⟨fun _ => none⟩ ⟨[], "site", fun _ => .ok true⟩
            ([⟨"a.png", .Blur ⟨1, 1, 1, 1, 1⟩⟩] ++
              ⟨"b.png", .Blur ⟨2, 2, 2, 2, 2⟩⟩ :: [⟨"c.png", .Blur ⟨3, 3, 3, 3, 3⟩⟩])).failures =
          (add_image_cache ⟨fun _ => none⟩ ⟨[], "site", fun _ => .ok true⟩
              [⟨"a.png", .Blur ⟨1, 1, 1, 1, 1⟩⟩]).failures ++
            (if (CachedImageOption.Blur ⟨2, 2, 2, 2, 2⟩).isBlur &&
                (cacheLookup
                  (add_image_cache ⟨fun _ => none⟩ ⟨[], "site", fun _ => .ok true⟩
                    [⟨"a.png", .Blur ⟨1, 1, 1, 1, 1⟩⟩]).cache
                  ⟨"b.png", .Blur ⟨2, 2, 2, 2, 2⟩⟩).isNone
              then [⟨"b.png", .Blur ⟨2, 2, 2, 2, 2⟩⟩] else []) ++
            (add_image_cache_go ⟨fun _ => none⟩ "site"
              (add_image_cache ⟨fun _ => none⟩ ⟨[], "site", fun _ => .ok true⟩
                [⟨"a.png", .Blur ⟨1, 1, 1, 1, 1⟩⟩]).cache
              [⟨"c.png", .Blur ⟨3, 3, 3, 3, 3⟩⟩]).failures ∧
        (add_image_cache ⟨fun _ => none⟩ ⟨[], "site", fun _ => .ok true⟩
            ([⟨"a.png", .Blur ⟨1, 1, 1, 1, 1⟩⟩] ++ [⟨"c.png", .Blur ⟨3, 3, 3, 3, 3⟩⟩])).failures =
          (add_image_cache ⟨fun _ => none⟩ ⟨[], "site", fun _ => .ok true⟩
              [⟨"a.png", .Blur ⟨1, 1, 1, 1, 1⟩⟩]).failures ++
            (add_image_cache_go ⟨fun _ => none⟩ "site"
              (add_image_cache ⟨fun _ => none⟩ ⟨[], "site", fun _ => .ok true⟩
                [⟨"a.png", .Blur ⟨1, 1, 1, 1, 1⟩⟩]).cache
              [⟨"c.png", .Blur ⟨3, 3, 3, 3, 3⟩⟩]).failures) :=
  ⟨rfl,
    C7_failed_read_nonfatal ⟨fun _ => none⟩ ⟨[], "site", fun _ => .ok true⟩
      [⟨"a.png", .Blur ⟨1, 1, 1, 1, 1⟩⟩] [⟨"c.png", .Blur ⟨3, 3, 3, 3, 3⟩⟩]
      ⟨"b.png", .Blur ⟨2, 2, 2, 2, 2⟩⟩ rfl⟩

/-! ## Claims about the `Image` component -/

/-- C8 counterexample: an empty source is admitted by the component — the
guard only checks for an "http" prefix, so for `src = ""` the component does
not take the plain `<img>` early return and constructs `CachedImage` requests
with the empty source.  Likewise a remote URL with a non-http scheme
(`ftp://cdn.example.com/cat.png`) passes the guard and is admitted.  This
refutes both the claim that empty sources are not admitted and the claim that
every absolute/remote URL renders a plain `<img>`. -/
theorem C8_counterexample :
    Image "" 10 20 75 "catmullrom" "fit" true =
      ImageView.cachedImg ⟨"", .Blur ⟨20, 20, 100, 100, 15⟩⟩
        ⟨"", .Resize ⟨75, .catmullRom, 20, 10, .fit⟩⟩ ∧
      Image "ftp://cdn.example.com/cat.png" 10 20 75 "catmullrom" "fit" true =
        ImageView.cachedImg ⟨"ftp://cdn.example.com/cat.png", .Blur ⟨20, 20, 100, 100, 15⟩⟩
          ⟨"ftp://cdn.example.com/cat.png", .Resize ⟨75, .catmullRom, 20, 10, .fit⟩⟩ := by
  constructor
  · decide
  · decide

/-- C8 (amended): the component rejects exactly the sources starting with
"http" — those render a plain `<img>` with the original `src` and no
`CachedImage` is constructed; every other source, including the empty string
and remote URLs with a non-http scheme, is admitted and gets the blur and
resize `CachedImage` requests constructed. -/
theorem C8_http_guard (src : String) (height width quality : Nat)
    (filter resize_type : String) (lazy : Bool) :
    (starts_with src "http" = true →
      Image src height width quality filter resize_type lazy =
        ImageView.plainImg src (if lazy then "lazy" else "eager")) ∧
      (starts_with src "http" = false →
        Image src height width quality filter resize_type lazy =
          ImageView.cachedImg ⟨src, .Blur ⟨20, 20, 100, 100, 15⟩⟩
            ⟨src, .Resize ⟨quality, (FilterType.parse filter).getD FilterType.default,
              width, height, (ResizeType.parse resize_type).getD ResizeType.default⟩⟩) := by
  constructor
  · intro h
    simp [Image, h]
  · intro h
    simp [Image, h]

/-- Witness for the amended C8: a concrete http URL is rejected and a concrete
relative path is admitted. -/
theorem C8_http_guard_witness :
    starts_with "https://example.com/cat.png" "http" = true ∧
      Image "https://example.com/cat.png" 10 20 75 "catmullrom" "fit" false =
        ImageView.plainImg "https://example.com/cat.png"
          (if false then "lazy" else "eager") ∧
      starts_with "cat.png" "http" = false ∧
      Image "cat.png" 10 20 75 "catmullrom" "fit" false =
        ImageView.cachedImg ⟨"cat.png", .Blur ⟨20, 20, 100, 100, 15⟩⟩
          ⟨"cat.png", .Resize ⟨75, (FilterType.parse "catmullrom").getD FilterType.default,
            20, 10, (ResizeType.parse "fit").getD ResizeType.default⟩⟩ :=
  ⟨by decide,
    (C8_http_guard "https://example.com/cat.png" 10 20 75 "catmullrom" "fit" false).1
      (by decide),
    by decide,
    (C8_http_guard "cat.png" 10 20 75 "catmullrom" "fit" false).2 (by decide)⟩

/-- C10: a filter string that does not parse as a known variant is silently
replaced by the default filter variant, and a resize-type string that does not
parse is silently replaced by the default resize-type variant — each
independently of whether the other field parses — so the constructed resize
request is always well-formed. -/
theorem C10_unknown_variant_default (src : String) (height width quality : Nat)
    (f r : String) (lazy : Bool)
    (hs : starts_with src "http" = false) :
    (FilterType.parse f = none →
      Image src height width quality f r lazy =
        ImageView.cachedImg ⟨src, .Blur ⟨20, 20, 100, 100, 15⟩⟩
          ⟨src, .Resize ⟨quality, FilterType.default, width, height,
            (ResizeType.parse r).getD ResizeType.default⟩⟩) ∧
      (ResizeType.parse r = none →
        Image src height width quality f r lazy =
          ImageView.cachedImg ⟨src, .Blur ⟨20, 20, 100, 100, 15⟩⟩
            ⟨src, .Resize ⟨quality, (FilterType.parse f).getD FilterType.default,
              width, height, ResizeType.default⟩⟩) := by
  constructor
  · intro hf
    simp [Image, hs, hf]
  · intro hr
    simp [Image, hs, hr]

/-- Witness for C10 at the two mixed cases: an unknown filter with a known
resize type, and a known filter with an unknown resize type. -/
theorem C10_unknown_variant_default_witness :
    starts_with "cat.png" "http" = false ∧
      FilterType.parse "bilinear" = none ∧
      Image "cat.png" 10 20 75 "bilinear" "cover" true =
        ImageView.cachedImg ⟨"cat.png", .Blur ⟨20, 20, 100, 100, 15⟩⟩
          ⟨"cat.png", .Resize ⟨75, FilterType.default, 20, 10,
            (ResizeType.parse "cover").getD ResizeType.default⟩⟩ ∧
      ResizeType.parse "stretch" = none ∧
      Image "cat.png" 10 20 75 "catmullrom" "stretch" true =
        ImageView.cachedImg ⟨"cat.png", .Blur ⟨20, 20, 100, 100, 15⟩⟩
          ⟨"cat.png", .Resize ⟨75, (FilterType.parse "catmullrom").getD FilterType.default,
            20, 10, ResizeType.default⟩⟩ :=
  ⟨by decide, by decide,
    (C10_unknown_variant_default "cat.png" 10 20 75 "bilinear" "cover" true
        (by decide)).1 (by decide),
    by decide,
    (C10_unknown_variant_default "cat.png" 10 20 75 "catmullrom" "stretch" true
        (by decide)).2 (by decide)⟩

end LeptosImage
